import Mathlib

/-!
Shallow embedding of the FalconSim flight-dynamics core.

`FlightDynamics` follows `src/physics/FlightDynamics.cpp` and its header:
the rigid-body state, control inputs, physical properties, cached rotation
matrices and aerodynamic parameters are fields of one structure, and every
member function becomes a pure state-passing function.  `Simulation` follows
`src/core/Simulation.cpp` / `Simulation.hpp`: lifecycle flags, the cached
control tuple, and the owned physics model; the loop thread is represented by
a joinable flag, and a throwing member function returns `Except`.
Double-precision scalars are modelled as real numbers.
-/

namespace falconsim

noncomputable section

/-- Three-component column vector, standing in for `Eigen::Vector3d`. -/
@[ext]
structure Vec3 where
  x : ℝ
  y : ℝ
  z : ℝ

namespace Vec3

/-- `Eigen::Vector3d::Zero()`. -/
def zero : Vec3 := ⟨0, 0, 0⟩

/-- Componentwise vector addition. -/
def add (a b : Vec3) : Vec3 := ⟨a.x + b.x, a.y + b.y, a.z + b.z⟩

instance : Add Vec3 := ⟨Vec3.add⟩

/-- Scalar multiple `c * v` (Eigen `v * c`). -/
def smul (c : ℝ) (v : Vec3) : Vec3 := ⟨c * v.x, c * v.y, c * v.z⟩

/-- Componentwise negation (Eigen unary minus). -/
def neg (v : Vec3) : Vec3 := ⟨-v.x, -v.y, -v.z⟩

/-- Division of a vector by a scalar (Eigen `v / c`). -/
def divS (v : Vec3) (c : ℝ) : Vec3 := ⟨v.x / c, v.y / c, v.z / c⟩

/-- Euclidean norm, `Eigen::Vector3d::norm()`. -/
def norm (v : Vec3) : ℝ := Real.sqrt (v.x * v.x + v.y * v.y + v.z * v.z)

/-- `Eigen::Vector3d::normalized()`: the vector divided by its norm. -/
def normalized (v : Vec3) : Vec3 := v.divS v.norm

@[simp] theorem add_x (a b : Vec3) : (a + b).x = a.x + b.x := rfl
@[simp] theorem add_y (a b : Vec3) : (a + b).y = a.y + b.y := rfl
@[simp] theorem add_z (a b : Vec3) : (a + b).z = a.z + b.z := rfl
@[simp] theorem smul_x (c : ℝ) (v : Vec3) : (smul c v).x = c * v.x := rfl
@[simp] theorem smul_y (c : ℝ) (v : Vec3) : (smul c v).y = c * v.y := rfl
@[simp] theorem smul_z (c : ℝ) (v : Vec3) : (smul c v).z = c * v.z := rfl
@[simp] theorem zero_x : zero.x = 0 := rfl
@[simp] theorem zero_y : zero.y = 0 := rfl
@[simp] theorem zero_z : zero.z = 0 := rfl

/-- The norm of the zero vector is zero. -/
theorem norm_zero : Vec3.zero.norm = 0 := by
  simp [Vec3.norm, Vec3.zero]

end Vec3

/-- 3×3 real matrix, standing in for `Eigen::Matrix3d`, row-major fields. -/
@[ext]
structure Mat3 where
  a11 : ℝ
  a12 : ℝ
  a13 : ℝ
  a21 : ℝ
  a22 : ℝ
  a23 : ℝ
  a31 : ℝ
  a32 : ℝ
  a33 : ℝ

namespace Mat3

/-- `Eigen::Matrix3d::Identity()`. -/
def identity : Mat3 := ⟨1, 0, 0, 0, 1, 0, 0, 0, 1⟩

/-- Matrix–vector product. -/
def mulVec (m : Mat3) (v : Vec3) : Vec3 :=
  ⟨m.a11 * v.x + m.a12 * v.y + m.a13 * v.z,
   m.a21 * v.x + m.a22 * v.y + m.a23 * v.z,
   m.a31 * v.x + m.a32 * v.y + m.a33 * v.z⟩

/-- Matrix transpose (`Eigen .transpose()`). -/
def transpose (m : Mat3) : Mat3 :=
  ⟨m.a11, m.a21, m.a31,
   m.a12, m.a22, m.a32,
   m.a13, m.a23, m.a33⟩

/-- Determinant by cofactor expansion along the first row. -/
def det (m : Mat3) : ℝ :=
  m.a11 * (m.a22 * m.a33 - m.a23 * m.a32)
    - m.a12 * (m.a21 * m.a33 - m.a23 * m.a31)
    + m.a13 * (m.a21 * m.a32 - m.a22 * m.a31)

/-- Exact 3×3 inverse by the cofactor formula, standing in for
`Eigen::Matrix3d::inverse()` (which uses cofactors at this size). -/
def inverse (m : Mat3) : Mat3 :=
  let d := m.det
  ⟨(m.a22 * m.a33 - m.a23 * m.a32) / d,
   (m.a13 * m.a32 - m.a12 * m.a33) / d,
   (m.a12 * m.a23 - m.a13 * m.a22) / d,
   (m.a23 * m.a31 - m.a21 * m.a33) / d,
   (m.a11 * m.a33 - m.a13 * m.a31) / d,
   (m.a13 * m.a21 - m.a11 * m.a23) / d,
   (m.a21 * m.a32 - m.a22 * m.a31) / d,
   (m.a12 * m.a31 - m.a11 * m.a32) / d,
   (m.a11 * m.a22 - m.a12 * m.a21) / d⟩

@[simp] theorem mulVec_x (m : Mat3) (v : Vec3) :
    (m.mulVec v).x = m.a11 * v.x + m.a12 * v.y + m.a13 * v.z := rfl
@[simp] theorem mulVec_y (m : Mat3) (v : Vec3) :
    (m.mulVec v).y = m.a21 * v.x + m.a22 * v.y + m.a23 * v.z := rfl
@[simp] theorem mulVec_z (m : Mat3) (v : Vec3) :
    (m.mulVec v).z = m.a31 * v.x + m.a32 * v.y + m.a33 * v.z := rfl

end Mat3

/-- `struct UAVPhysicalProperties` from `FlightDynamics.hpp`. -/
structure UAVPhysicalProperties where
  mass : ℝ
  inertia : Vec3
  dimensions : Vec3
  thrust_max : ℝ

/-- Default member initializers of `UAVPhysicalProperties`. -/
def UAVPhysicalProperties.init : UAVPhysicalProperties :=
  ⟨1.0, ⟨1.0, 1.0, 1.0⟩, ⟨1.0, 1.0, 0.2⟩, 20.0⟩

/-- `struct ControlInputs` from `FlightDynamics.hpp`. -/
structure ControlInputs where
  throttle : ℝ
  aileron : ℝ
  elevator : ℝ
  rudder : ℝ

/-- Default member initializers of `ControlInputs` (all fields `0.0`). -/
def ControlInputs.init : ControlInputs := ⟨0, 0, 0, 0⟩

/-- `struct AircraftState` from `FlightDynamics.hpp`. -/
structure AircraftState where
  position : Vec3
  velocity : Vec3
  euler_angles : Vec3
  angular_velocity : Vec3
  mass : ℝ

/-- Default member initializers of `AircraftState` (zero vectors, mass `1.0`). -/
def AircraftState.init : AircraftState :=
  ⟨Vec3.zero, Vec3.zero, Vec3.zero, Vec3.zero, 1.0⟩

/-- The member variables of `class FlightDynamics`. -/
structure FlightDynamics where
  m_state : AircraftState
  m_controls : ControlInputs
  m_properties : UAVPhysicalProperties
  m_rotationBodyToNED : Mat3
  m_rotationNEDToBody : Mat3
  m_wingArea : ℝ
  m_wingspan : ℝ
  m_liftCoefficient : ℝ
  m_dragCoefficient : ℝ
  m_thrust_max : ℝ
  m_airDensity : ℝ
  m_gravity : ℝ
  m_inertiaTensor : Mat3

namespace FlightDynamics

/-- `FlightDynamics::FlightDynamics()`: default member initializers from the
header, then the constructor body sets the inertia tensor to
`diag(0.5, 0.8, 1.0)`. -/
def init : FlightDynamics :=
  { m_state := AircraftState.init
    m_controls := ControlInputs.init
    m_properties := UAVPhysicalProperties.init
    m_rotationBodyToNED := Mat3.identity
    m_rotationNEDToBody := Mat3.identity
    m_wingArea := 0.5
    m_wingspan := 1.5
    m_liftCoefficient := 1.2
    m_dragCoefficient := 0.1
    m_thrust_max := 20.0
    m_airDensity := 1.225
    m_gravity := 9.81
    m_inertiaTensor := ⟨0.5, 0, 0, 0, 0.8, 0, 0, 0, 1.0⟩ }

/-- `FlightDynamics::getState`. -/
def getState (m : FlightDynamics) : AircraftState := m.m_state

/-- `FlightDynamics::setState`: `m_state = state;` with no clamping. -/
def setState (state : AircraftState) (m : FlightDynamics) : FlightDynamics :=
  { m with m_state := state }

/-- `FlightDynamics::setControls`: each field clamped to its range with
`std::max(lo, std::min(value, hi))`. -/
def setControls (controls : ControlInputs) (m : FlightDynamics) : FlightDynamics :=
  { m with m_controls :=
    { throttle := max 0 (min controls.throttle 1)
      aileron := max (-1) (min controls.aileron 1)
      elevator := max (-1) (min controls.elevator 1)
      rudder := max (-1) (min controls.rudder 1) } }

/-- `FlightDynamics::getControls`. -/
def getControls (m : FlightDynamics) : ControlInputs := m.m_controls

/-- `FlightDynamics::setProperties`: `m_properties = properties;`. -/
def setProperties (properties : UAVPhysicalProperties) (m : FlightDynamics) :
    FlightDynamics :=
  { m with m_properties := properties }

/-- `FlightDynamics::getProperties`. -/
def getProperties (m : FlightDynamics) : UAVPhysicalProperties := m.m_properties

/-- `FlightDynamics::setAirDensity`: floors to `0.01`. -/
def setAirDensity (density : ℝ) (m : FlightDynamics) : FlightDynamics :=
  { m with m_airDensity := max 0.01 density }

/-- `FlightDynamics::setMass`: floors the state mass to `0.1`. -/
def setMass (mass : ℝ) (m : FlightDynamics) : FlightDynamics :=
  { m with m_state := { m.m_state with mass := max 0.1 mass } }

/-- `FlightDynamics::setWingspanArea`: floors to `0.01`. -/
def setWingspanArea (area : ℝ) (m : FlightDynamics) : FlightDynamics :=
  { m with m_wingArea := max 0.01 area }

/-- `FlightDynamics::setLiftCoefficient` (no clamping). -/
def setLiftCoefficient (cl : ℝ) (m : FlightDynamics) : FlightDynamics :=
  { m with m_liftCoefficient := cl }

/-- `FlightDynamics::setDragCoefficient`: floors to `0`. -/
def setDragCoefficient (cd : ℝ) (m : FlightDynamics) : FlightDynamics :=
  { m with m_dragCoefficient := max 0 cd }

/-- The body→NED rotation matrix that `FlightDynamics::updateRotationMatrices`
builds from a given triple of Euler angles (roll `x`, pitch `y`, yaw `z`). -/
def bodyToNEDOf (e : Vec3) : Mat3 :=
  let cphi := Real.cos e.x
  let sphi := Real.sin e.x
  let ctheta := Real.cos e.y
  let stheta := Real.sin e.y
  let cpsi := Real.cos e.z
  let spsi := Real.sin e.z
  ⟨cpsi * ctheta, cpsi * stheta * sphi - spsi * cphi, cpsi * stheta * cphi + spsi * sphi,
   spsi * ctheta, spsi * stheta * sphi + cpsi * cphi, spsi * stheta * cphi - cpsi * sphi,
   -stheta, ctheta * sphi, ctheta * cphi⟩

/-- `FlightDynamics::updateRotationMatrices`: recompute both cached matrices
from `m_state.euler_angles`; the NED→body matrix is the transpose. -/
def updateRotationMatrices (m : FlightDynamics) : FlightDynamics :=
  let r := bodyToNEDOf m.m_state.euler_angles
  { m with m_rotationBodyToNED := r, m_rotationNEDToBody := r.transpose }

/-- `FlightDynamics::calculateLift`: zero below 0.1 m/s airspeed, else
`0.5 * rho * v^2 * CL * S` along body `-z`. -/
def calculateLift (m : FlightDynamics) : Vec3 :=
  let airspeed := m.m_state.velocity.norm
  if airspeed < 0.1 then Vec3.zero
  else
    let liftMagnitude :=
      0.5 * m.m_airDensity * airspeed * airspeed * m.m_liftCoefficient * m.m_wingArea
    ⟨0, 0, -liftMagnitude⟩

/-- `FlightDynamics::calculateDrag`: zero below 0.1 m/s airspeed, else
`0.5 * rho * v^2 * CD * S` opposite the velocity direction. -/
def calculateDrag (m : FlightDynamics) : Vec3 :=
  let airspeed := m.m_state.velocity.norm
  if airspeed < 0.1 then Vec3.zero
  else
    let dragMagnitude :=
      0.5 * m.m_airDensity * airspeed * airspeed * m.m_dragCoefficient * m.m_wingArea
    Vec3.smul dragMagnitude (Vec3.neg m.m_state.velocity.normalized)

/-- `FlightDynamics::calculateThrust`: `(throttle * thrust_max, 0, 0)`. -/
def calculateThrust (m : FlightDynamics) : Vec3 :=
  ⟨m.m_controls.throttle * m.m_thrust_max, 0, 0⟩

/-- `FlightDynamics::calculateGravity`: `(0, 0, mass * g)` in NED rotated into
the body frame by the cached `m_rotationNEDToBody`. -/
def calculateGravity (m : FlightDynamics) : Vec3 :=
  m.m_rotationNEDToBody.mulVec ⟨0, 0, m.m_state.mass * m.m_gravity⟩

/-- `FlightDynamics::calculateAileronMoment`: roll moment
`aileron * 2.0 * wingspan` about body `x`. -/
def calculateAileronMoment (m : FlightDynamics) : Vec3 :=
  ⟨m.m_controls.aileron * 2.0 * m.m_wingspan, 0, 0⟩

/-- `FlightDynamics::calculateElevatorMoment`: pitch moment `elevator * 1.5`
about body `y`. -/
def calculateElevatorMoment (m : FlightDynamics) : Vec3 :=
  ⟨0, m.m_controls.elevator * 1.5, 0⟩

/-- `FlightDynamics::calculateRudderMoment`: yaw moment `rudder * 1.0` about
body `z`. -/
def calculateRudderMoment (m : FlightDynamics) : Vec3 :=
  ⟨0, 0, m.m_controls.rudder * 1.0⟩

/-- `FlightDynamics::updateForces`: sum thrust, lift, drag and gravity in the
body frame, divide by the state mass, and Euler-integrate the velocity. -/
def updateForces (dt : ℝ) (m : FlightDynamics) : FlightDynamics :=
  let lift := m.calculateLift
  let drag := m.calculateDrag
  let thrust := m.calculateThrust
  let gravity := m.calculateGravity
  let totalForce := thrust + lift + drag + gravity
  let acceleration := totalForce.divS m.m_state.mass
  { m with m_state :=
    { m.m_state with velocity := m.m_state.velocity + Vec3.smul dt acceleration } }

/-- `FlightDynamics::updateMoments`: sum the three control-surface moments,
apply the inverse inertia tensor, and Euler-integrate the angular velocity. -/
def updateMoments (dt : ℝ) (m : FlightDynamics) : FlightDynamics :=
  let aileronMoment := m.calculateAileronMoment
  let elevatorMoment := m.calculateElevatorMoment
  let rudderMoment := m.calculateRudderMoment
  let totalMoment := aileronMoment + elevatorMoment + rudderMoment
  let angularAccel := m.m_inertiaTensor.inverse.mulVec totalMoment
  { m with m_state :=
    { m.m_state with angular_velocity :=
        m.m_state.angular_velocity + Vec3.smul dt angularAccel } }

/-- First half of `FlightDynamics::integrateState`: recompute the cached
rotation matrices from the current orientation, rotate the body velocity into
NED and Euler-integrate the position. -/
def integratePosition (dt : ℝ) (m : FlightDynamics) : FlightDynamics :=
  let m1 := m.updateRotationMatrices
  let velocityNED := m1.m_rotationBodyToNED.mulVec m1.m_state.velocity
  { m1 with m_state :=
    { m1.m_state with position := m1.m_state.position + Vec3.smul dt velocityNED } }

/-- Second half of `FlightDynamics::integrateState`: build the Euler-rate
matrix `W` from roll and pitch, apply it to the angular velocity, and
Euler-integrate the Euler angles. -/
def integrateOrientation (dt : ℝ) (m : FlightDynamics) : FlightDynamics :=
  let phi := m.m_state.euler_angles.x
  let theta := m.m_state.euler_angles.y
  let w : Mat3 :=
    ⟨1, Real.sin phi * Real.tan theta, Real.cos phi * Real.tan theta,
     0, Real.cos phi, -Real.sin phi,
     0, Real.sin phi / Real.cos theta, Real.cos phi / Real.cos theta⟩
  let eulerRates := w.mulVec m.m_state.angular_velocity
  { m with m_state :=
    { m.m_state with euler_angles :=
        m.m_state.euler_angles + Vec3.smul dt eulerRates } }

/-- `FlightDynamics::integrateState`: the position update runs first, then the
orientation update (neither reads a field the other writes). -/
def integrateState (dt : ℝ) (m : FlightDynamics) : FlightDynamics :=
  integrateOrientation dt (integratePosition dt m)

/-- `FlightDynamics::update`: `updateForces`, then `updateMoments`, then
`integrateState`. -/
def update (dt : ℝ) (m : FlightDynamics) : FlightDynamics :=
  integrateState dt (updateMoments dt (updateForces dt m))

end FlightDynamics

/-- The member variables of `class Simulation` (`Simulation.hpp`): the owned
physics model, the atomic lifecycle flags, the timestep, the loop thread
(modelled by whether it is joinable), and the cached control tuple. -/
structure Simulation where
  m_physics : FlightDynamics
  m_running : Bool
  m_paused : Bool
  m_timestep : ℝ
  m_threadJoinable : Bool
  m_controls : ControlInputs

namespace Simulation

/-- `Simulation::Simulation(double timestep)`. -/
def init (timestep : ℝ) : Simulation :=
  ⟨FlightDynamics.init, false, false, timestep, false, ControlInputs.init⟩

/-- `Simulation::start`: throws `"Simulation already running"` if the running
flag is set (leaving the object untouched); otherwise sets running, clears
paused and spawns the loop thread. -/
def start (s : Simulation) : Except String Simulation :=
  if s.m_running then Except.error "Simulation already running"
  else Except.ok { s with m_running := true, m_paused := false, m_threadJoinable := true }

/-- `Simulation::stop`: clears the running flag and joins the loop thread when
it is joinable; never throws. -/
def stop (s : Simulation) : Simulation :=
  let s1 := { s with m_running := false }
  if s1.m_threadJoinable then { s1 with m_threadJoinable := false } else s1

/-- `Simulation::pause`. -/
def pause (s : Simulation) : Simulation := { s with m_paused := true }

/-- `Simulation::resume`. -/
def resume (s : Simulation) : Simulation := { s with m_paused := false }

/-- `Simulation::getState`: pass-through to the model. -/
def getState (s : Simulation) : AircraftState := s.m_physics.getState

/-- `Simulation::setState`: pass-through to the model. -/
def setState (state : AircraftState) (s : Simulation) : Simulation :=
  { s with m_physics := s.m_physics.setState state }

/-- `Simulation::setThrust`: clamps the throttle into the cached control
tuple, then forwards the whole tuple to the model. -/
def setThrust (throttle : ℝ) (s : Simulation) : Simulation :=
  let c := { s.m_controls with throttle := max 0 (min throttle 1) }
  { s with m_controls := c, m_physics := s.m_physics.setControls c }

/-- `Simulation::setControlSurfaces`: clamps aileron, elevator, rudder into
the cached control tuple, then forwards the whole tuple to the model. -/
def setControlSurfaces (controls : Vec3) (s : Simulation) : Simulation :=
  let c := { s.m_controls with
    aileron := max (-1) (min controls.x 1)
    elevator := max (-1) (min controls.y 1)
    rudder := max (-1) (min controls.z 1) }
  { s with m_controls := c, m_physics := s.m_physics.setControls c }

end Simulation

/-- The spec's description of clamping a scalar to a closed interval: inputs
below the lower bound store the lower bound, inputs above the upper bound
store the upper bound, in-range inputs are stored unchanged.  Stated from the
spec's words, to be compared against the code's `max lo (min x hi)`. -/
def specClamp (lo hi x : ℝ) : ℝ :=
  if x < lo then lo else if hi < x then hi else x

/-- The gravity vector the spec describes for one `update` call: `(0,0,mass*g)`
in NED rotated into the body frame by the NED→body matrix computed fresh from
the orientation held at entry to that call.  Stated from the spec's words, to
be compared against the code's `calculateGravity`, which uses the cached
matrix. -/
def specGravity (m : FlightDynamics) : Vec3 :=
  (FlightDynamics.bodyToNEDOf m.m_state.euler_angles).transpose.mulVec
    ⟨0, 0, m.m_state.mass * m.m_gravity⟩

/-- The code's clamp `max lo (min x hi)` agrees with the spec's
nearest-bound description whenever the interval is nonempty. -/
theorem maxmin_eq_specClamp (lo hi x : ℝ) (h : lo ≤ hi) :
    max lo (min x hi) = specClamp lo hi x := by
  unfold specClamp
  rcases lt_or_le x lo with hx | hx
  · rw [if_pos hx, min_eq_left (le_trans hx.le h), max_eq_left hx.le]
  · rw [if_neg (not_lt.mpr hx)]
    rcases lt_or_le hi x with hy | hy
    · rw [if_pos hy, min_eq_right hy.le, max_eq_right h]
    · rw [if_neg (not_lt.mpr hy), min_eq_left hy, max_eq_right hx]

/-- Clamping an already-clamped value changes nothing (used for the driver's
setters, which clamp before forwarding to the model's clamping setter). -/
theorem maxmin_idem (lo hi x : ℝ) (h : lo ≤ hi) :
    max lo (min (max lo (min x hi)) hi) = max lo (min x hi) := by
  rcases le_total x hi with hx | hx
  · rw [min_eq_left hx]
    rcases le_total x lo with hl | hl
    · rw [max_eq_left hl, min_eq_left h, max_eq_left le_rfl]
    · rw [max_eq_right hl, min_eq_left hx, max_eq_right hl]
  · rw [min_eq_right hx, max_eq_right h, min_self, max_eq_right h]

/-- C1: in every `update(dt)` call the force step sums thrust
`(throttle * thrust_max, 0, 0)`, a lift of magnitude
`0.5 * rho * speed^2 * CL * S` along body `-z` (exactly zero below 0.1 m/s),
a drag of the analogous magnitude opposite the velocity (zero below the same
threshold) and gravity, and the new body-frame velocity is exactly the old
velocity plus `(total force / mass) * dt`; no later part of the step touches
the velocity. -/
theorem update_velocity_is_forward_euler_force_sum (dt : ℝ) (m : FlightDynamics) :
    (FlightDynamics.update dt m).m_state.velocity =
      m.m_state.velocity +
        Vec3.smul dt
          ((⟨m.m_controls.throttle * m.m_thrust_max, 0, 0⟩ +
              (if m.m_state.velocity.norm < 0.1 then Vec3.zero
               else ⟨0, 0, -(0.5 * m.m_airDensity * m.m_state.velocity.norm *
                        m.m_state.velocity.norm * m.m_liftCoefficient * m.m_wingArea)⟩) +
              (if m.m_state.velocity.norm < 0.1 then Vec3.zero
               else Vec3.smul
                  (0.5 * m.m_airDensity * m.m_state.velocity.norm *
                    m.m_state.velocity.norm * m.m_dragCoefficient * m.m_wingArea)
                  (Vec3.neg m.m_state.velocity.normalized)) +
              FlightDynamics.calculateGravity m).divS m.m_state.mass) := rfl

/-- C3: in every `update(dt)` call the moment step produces roll moment
`aileron * 2.0 * wingspan`, pitch moment `elevator * 1.5` and yaw moment
`rudder * 1.0` — none of which mentions the airspeed — and the new angular
velocity is the old one plus `inverse(inertia) * total moment * dt`. -/
theorem update_angular_velocity_is_forward_euler_moment_sum (dt : ℝ) (m : FlightDynamics) :
    (FlightDynamics.update dt m).m_state.angular_velocity =
      m.m_state.angular_velocity +
        Vec3.smul dt (m.m_inertiaTensor.inverse.mulVec
          ((⟨m.m_controls.aileron * 2.0 * m.m_wingspan, 0, 0⟩ : Vec3) +
            (⟨0, m.m_controls.elevator * 1.5, 0⟩ : Vec3) +
            (⟨0, 0, m.m_controls.rudder * 1.0⟩ : Vec3))) := rfl

/-- C5: `set_state` followed by `get_state` returns exactly the installed
state, for every state — the setter replaces the whole state and clamps
nothing. -/
theorem setState_getState_roundtrip (s : AircraftState) (m : FlightDynamics) :
    FlightDynamics.getState (FlightDynamics.setState s m) = s := rfl

/-- C6 counterexample: `set_state` accepts a state whose mass is `0.01`
unchanged, so a reachable state of the model has mass below the claimed
floor of `0.1`. -/
theorem setState_admits_mass_below_floor :
    (FlightDynamics.setState { AircraftState.init with mass := 0.01 }
        FlightDynamics.init).m_state.mass < 0.1 := by
  show (0.01 : ℝ) < 0.1
  norm_num

/-- C6 amended: only `set_mass` enforces the `0.1` floor; `set_state` stores
the given mass unchanged, and `set_properties` and `update` leave the state's
mass untouched, so the invariant holds only for masses written via
`set_mass`. -/
theorem mass_floor_only_on_setMass (m : FlightDynamics) (x : ℝ) (s : AircraftState)
    (p : UAVPhysicalProperties) (dt : ℝ) :
    0.1 ≤ (FlightDynamics.setMass x m).m_state.mass ∧
    (FlightDynamics.setState s m).m_state.mass = s.mass ∧
    (FlightDynamics.setProperties p m).m_state.mass = m.m_state.mass ∧
    (FlightDynamics.update dt m).m_state.mass = m.m_state.mass :=
  ⟨le_max_left 0.1 x, rfl, rfl, rfl⟩

/-- C2 amended: the gravity contribution of `update` is `(0,0,mass*g)` rotated
by the *cached* NED→body matrix, not by a matrix freshly derived from the
orientation at entry; the cache is identity at construction, is left untouched
by `set_state`, and each `update` recomputes it as a pure function of the
orientation held before that step's kinematic update. -/
theorem gravity_uses_cached_rotation_matrix (m : FlightDynamics) (dt : ℝ)
    (s : AircraftState) :
    FlightDynamics.calculateGravity m =
      m.m_rotationNEDToBody.mulVec ⟨0, 0, m.m_state.mass * m.m_gravity⟩ ∧
    (FlightDynamics.update dt m).m_rotationBodyToNED =
      FlightDynamics.bodyToNEDOf m.m_state.euler_angles ∧
    (FlightDynamics.update dt m).m_rotationNEDToBody =
      (FlightDynamics.bodyToNEDOf m.m_state.euler_angles).transpose ∧
    (FlightDynamics.setState s m).m_rotationNEDToBody = m.m_rotationNEDToBody ∧
    FlightDynamics.init.m_rotationNEDToBody = Mat3.identity :=
  ⟨rfl, rfl, rfl, rfl, rfl⟩

/-- C7: every control setter stores the clamped input — `set_controls` on the
model, and `set_thrust` / `set_control_surfaces` on the driver — with throttle
clamped to `[0,1]` and aileron/elevator/rudder to `[-1,1]`; out-of-range input
is mapped to the nearest bound by these total functions, never rejected. -/
theorem controls_always_clamped (c : ControlInputs) (m : FlightDynamics)
    (t : ℝ) (v : Vec3) (s : Simulation) :
    (FlightDynamics.setControls c m).m_controls.throttle = specClamp 0 1 c.throttle ∧
    (FlightDynamics.setControls c m).m_controls.aileron = specClamp (-1) 1 c.aileron ∧
    (FlightDynamics.setControls c m).m_controls.elevator = specClamp (-1) 1 c.elevator ∧
    (FlightDynamics.setControls c m).m_controls.rudder = specClamp (-1) 1 c.rudder ∧
    (Simulation.setThrust t s).m_physics.m_controls.throttle = specClamp 0 1 t ∧
    (Simulation.setControlSurfaces v s).m_physics.m_controls.aileron =
      specClamp (-1) 1 v.x ∧
    (Simulation.setControlSurfaces v s).m_physics.m_controls.elevator =
      specClamp (-1) 1 v.y ∧
    (Simulation.setControlSurfaces v s).m_physics.m_controls.rudder =
      specClamp (-1) 1 v.z := by
  refine ⟨maxmin_eq_specClamp 0 1 c.throttle (by norm_num),
    maxmin_eq_specClamp (-1) 1 c.aileron (by norm_num),
    maxmin_eq_specClamp (-1) 1 c.elevator (by norm_num),
    maxmin_eq_specClamp (-1) 1 c.rudder (by norm_num), ?_, ?_, ?_, ?_⟩
  · show max 0 (min (max 0 (min t 1)) 1) = specClamp 0 1 t
    rw [maxmin_idem 0 1 t (by norm_num), maxmin_eq_specClamp 0 1 t (by norm_num)]
  · show max (-1) (min (max (-1) (min v.x 1)) 1) = specClamp (-1) 1 v.x
    rw [maxmin_idem (-1) 1 v.x (by norm_num),
      maxmin_eq_specClamp (-1) 1 v.x (by norm_num)]
  · show max (-1) (min (max (-1) (min v.y 1)) 1) = specClamp (-1) 1 v.y
    rw [maxmin_idem (-1) 1 v.y (by norm_num),
      maxmin_eq_specClamp (-1) 1 v.y (by norm_num)]
  · show max (-1) (min (max (-1) (min v.z 1)) 1) = specClamp (-1) 1 v.z
    rw [maxmin_idem (-1) 1 v.z (by norm_num),
      maxmin_eq_specClamp (-1) 1 v.z (by norm_num)]

/-- C2 counterexample: on a fresh model, install (via `set_state`) a state
pitched by π, then look at the gravity contribution the next `update` would
use.  The code rotates by the cached identity matrix and yields body-frame
`(0, 0, +mg)`, while the matrix computed from the orientation at entry would
yield `(0, 0, -mg)` — so gravity does not use the current orientation and the
cached matrices are not a pure function of the current state. -/
theorem gravity_stale_after_setState_counterexample :
    FlightDynamics.calculateGravity
        (FlightDynamics.setState
          { AircraftState.init with euler_angles := ⟨0, Real.pi, 0⟩ }
          FlightDynamics.init) ≠
      specGravity
        (FlightDynamics.setState
          { AircraftState.init with euler_angles := ⟨0, Real.pi, 0⟩ }
          FlightDynamics.init) := by
  intro h
  have hz := congrArg Vec3.z h
  simp [FlightDynamics.calculateGravity, FlightDynamics.setState, specGravity,
    FlightDynamics.bodyToNEDOf, Mat3.transpose, Mat3.identity, Mat3.mulVec,
    FlightDynamics.init, AircraftState.init, Vec3.zero] at hz
  norm_num at hz

/-- C4: `update(dt)` runs the integration step last; that step recomputes the
body→NED matrix from the orientation before the kinematic update (forces and
moments leave the orientation untouched), advances the position by the rotated
body velocity times `dt`, and advances the orientation by `W(roll, pitch)`
applied to the angular velocity times `dt`, with the claimed `W`. -/
theorem update_integrates_position_and_orientation (m : FlightDynamics) (dt : ℝ)
    (h : Real.cos m.m_state.euler_angles.y ≠ 0) :
    FlightDynamics.update dt m =
      FlightDynamics.integrateState dt
        (FlightDynamics.updateMoments dt (FlightDynamics.updateForces dt m)) ∧
    (FlightDynamics.updateMoments dt
        (FlightDynamics.updateForces dt m)).m_state.euler_angles =
      m.m_state.euler_angles ∧
    (∀ n : FlightDynamics,
      (FlightDynamics.integrateState dt n).m_rotationBodyToNED =
        FlightDynamics.bodyToNEDOf n.m_state.euler_angles ∧
      (FlightDynamics.integrateState dt n).m_state.position =
        n.m_state.position +
          Vec3.smul dt ((FlightDynamics.bodyToNEDOf n.m_state.euler_angles).mulVec
            n.m_state.velocity) ∧
      (FlightDynamics.integrateState dt n).m_state.euler_angles =
        n.m_state.euler_angles +
          Vec3.smul dt (Mat3.mulVec
            ⟨1, Real.sin n.m_state.euler_angles.x * Real.tan n.m_state.euler_angles.y,
               Real.cos n.m_state.euler_angles.x * Real.tan n.m_state.euler_angles.y,
             0, Real.cos n.m_state.euler_angles.x, -Real.sin n.m_state.euler_angles.x,
             0, Real.sin n.m_state.euler_angles.x / Real.cos n.m_state.euler_angles.y,
               Real.cos n.m_state.euler_angles.x / Real.cos n.m_state.euler_angles.y⟩
            n.m_state.angular_velocity)) :=
  ⟨rfl, rfl, fun _ => ⟨rfl, rfl, rfl⟩⟩

/-- Witness for the integration-step theorem at the default-constructed model
(pitch `0`, so `cos` of the pitch is `1 ≠ 0`) with `dt = 1`. -/
theorem update_integrates_position_and_orientation_witness :
    Real.cos (FlightDynamics.init).m_state.euler_angles.y ≠ 0 ∧
    FlightDynamics.update 1 FlightDynamics.init =
      FlightDynamics.integrateState 1
        (FlightDynamics.updateMoments 1 (FlightDynamics.updateForces 1
          FlightDynamics.init)) := by
  have hcos : Real.cos (FlightDynamics.init).m_state.euler_angles.y ≠ 0 := by
    show Real.cos 0 ≠ 0
    rw [Real.cos_zero]
    norm_num
  exact ⟨hcos,
    (update_integrates_position_and_orientation FlightDynamics.init 1 hcos).1⟩

/-- C8: `stop` always leaves the running flag cleared, is idempotent, and on a
never-started driver (running flag and thread both absent) returns with the
driver unchanged apart from the already-false running flag; a second `start`
without an intervening `stop` throws `"Simulation already running"`. -/
theorem stop_idempotent_and_double_start_fails (s : Simulation) :
    (Simulation.stop s).m_running = false ∧
    Simulation.stop (Simulation.stop s) = Simulation.stop s ∧
    (s.m_running = false → s.m_threadJoinable = false → Simulation.stop s = s) ∧
    (∀ s1, Simulation.start s = Except.ok s1 →
      Simulation.start s1 = Except.error "Simulation already running") := by
  obtain ⟨p, r, pa, t, j, c⟩ := s
  refine ⟨?_, ?_, ?_, ?_⟩
  · cases j <;> rfl
  · cases j <;> rfl
  · intro hr hj
    simp only at hr hj
    subst hr
    subst hj
    rfl
  · intro s1 h
    cases r
    · simp only [Simulation.start, Bool.false_eq_true, if_false, Except.ok.injEq] at h
      subst h
      rfl
    · simp only [Simulation.start, if_true] at h
      cases h

/-- Witness for the lifecycle theorem on a freshly constructed driver: `stop`
leaves it unchanged, and `start` after a successful `start` throws. -/
theorem stop_idempotent_and_double_start_fails_witness :
    Simulation.stop (Simulation.init 0.01) = Simulation.init 0.01 ∧
    Simulation.start { Simulation.init 0.01 with
        m_running := true, m_paused := false, m_threadJoinable := true } =
      Except.error "Simulation already running" :=
  ⟨(stop_idempotent_and_double_start_fails (Simulation.init 0.01)).2.2.1 rfl rfl,
    (stop_idempotent_and_double_start_fails (Simulation.init 0.01)).2.2.2
      { Simulation.init 0.01 with
        m_running := true, m_paused := false, m_threadJoinable := true } rfl⟩

/-- Concrete aircraft state used to exhibit the write boundary inside
`update`: at rest, spinning about the body x-axis. -/
def spinningState : AircraftState :=
  { AircraftState.init with angular_velocity := ⟨1, 0, 0⟩ }

/-- Model holding `spinningState`, installed through `setState` on a fresh
model as a caller thread would install it. -/
def spinningModel : FlightDynamics :=
  FlightDynamics.setState spinningState FlightDynamics.init

/-- The physics object exactly between `integrateState`'s position write and
its orientation write during `update(1)` on `spinningModel` — the memory an
unsynchronized concurrent `getState` can copy, since `Simulation` holds no
lock around `update` or the accessors. -/
def midStepModel : FlightDynamics :=
  FlightDynamics.integratePosition 1
    (FlightDynamics.updateMoments 1 (FlightDynamics.updateForces 1 spinningModel))

/-- C9: `update` is a sequence of separate field writes, not an atomic
transaction — `midStepModel` is an intermediate memory state of `update(1)`
in which the position is already updated while the orientation still has its
pre-step value, and the completed update does change the orientation; a
`getState` served from that moment returns a mixed state, which the claimed
mutual exclusion would have made impossible. -/
theorem getState_can_observe_partial_update :
    FlightDynamics.update 1 spinningModel =
      FlightDynamics.integrateOrientation 1 midStepModel ∧
    (Simulation.getState
        { Simulation.init 0.01 with m_physics := midStepModel }).position ≠
      spinningModel.m_state.position ∧
    (Simulation.getState
        { Simulation.init 0.01 with m_physics := midStepModel }).euler_angles =
      spinningModel.m_state.euler_angles ∧
    (FlightDynamics.update 1 spinningModel).m_state.euler_angles ≠
      spinningModel.m_state.euler_angles := by
  refine ⟨rfl, ?_, rfl, ?_⟩
  · intro h
    have hz := congrArg Vec3.z h
    norm_num [Simulation.getState, Simulation.init, FlightDynamics.getState,
      midStepModel, spinningModel, spinningState, FlightDynamics.integratePosition,
      FlightDynamics.updateRotationMatrices, FlightDynamics.updateMoments,
      FlightDynamics.updateForces, FlightDynamics.bodyToNEDOf,
      FlightDynamics.calculateThrust, FlightDynamics.calculateGravity,
      FlightDynamics.calculateLift, FlightDynamics.calculateDrag,
      FlightDynamics.calculateAileronMoment, FlightDynamics.calculateElevatorMoment,
      FlightDynamics.calculateRudderMoment, Mat3.mulVec, Mat3.inverse, Mat3.det,
      Mat3.transpose, Mat3.identity, Vec3.norm, Vec3.zero, Vec3.divS,
      Vec3.normalized, FlightDynamics.setState, FlightDynamics.init,
      AircraftState.init, ControlInputs.init] at hz
  · intro h
    have hx := congrArg Vec3.x h
    norm_num [FlightDynamics.update, FlightDynamics.integrateState,
      FlightDynamics.integrateOrientation, FlightDynamics.integratePosition,
      FlightDynamics.updateRotationMatrices, FlightDynamics.updateMoments,
      FlightDynamics.updateForces, FlightDynamics.bodyToNEDOf,
      FlightDynamics.calculateThrust, FlightDynamics.calculateGravity,
      FlightDynamics.calculateLift, FlightDynamics.calculateDrag,
      FlightDynamics.calculateAileronMoment, FlightDynamics.calculateElevatorMoment,
      FlightDynamics.calculateRudderMoment, Mat3.mulVec, Mat3.inverse, Mat3.det,
      Mat3.transpose, Mat3.identity, Vec3.norm, Vec3.zero, Vec3.divS,
      Vec3.normalized, FlightDynamics.setState, FlightDynamics.init,
      AircraftState.init, ControlInputs.init, spinningModel, spinningState] at hx

/-- C10: the evolution computed by `update` never reads the stored properties
struct — installing any two property values before the same `update` yields
identical states — and `set_properties` changes nothing except what
`get_properties` returns. -/
theorem update_independent_of_properties (p q : UAVPhysicalProperties)
    (m : FlightDynamics) (dt : ℝ) :
    (FlightDynamics.update dt (FlightDynamics.setProperties p m)).m_state =
      (FlightDynamics.update dt (FlightDynamics.setProperties q m)).m_state ∧
    FlightDynamics.getProperties (FlightDynamics.setProperties p m) = p ∧
    (FlightDynamics.setProperties p m).m_state = m.m_state ∧
    (FlightDynamics.setProperties p m).m_controls = m.m_controls :=
  ⟨rfl, rfl, rfl, rfl⟩

end

end falconsim
